import Mathlib

/-!
Shallow embedding of the Monte Carlo π estimation app (`pi_app_v1.1.py`).

The core of the program is the function `run_pi_simulation`, which draws
`num_points` coordinate pairs from the ambient uniform random source on
`[-1, 1]`, classifies each point by whether it lies in the unit disk, and
derives a π estimate, and the function `plot_simulation`, which builds the
scatter-plot figure.

Python floats are modelled as rationals (`ℚ`); the arithmetic the program
performs (squaring, addition, comparison with 1, a single division by a
positive integer) is exact at the granularity relevant to the properties
proven here.  The global numpy random generator is modelled as an injected
stream `rng : ℕ → ℚ`: the call `np.random.uniform(-1, 1, n)` for `x`
consumes draws `0, …, n-1`, and the subsequent call for `y` consumes draws
`n, …, 2n-1`.  Per numpy's documented contract, each draw lies in the
half-open interval `[-1, 1)`.
-/

/-- The six-tuple returned by `run_pi_simulation`
(`return x, y, inside_circle, pi_estimate, points_inside, points_total`). -/
structure SimOut where
  x : List ℚ
  y : List ℚ
  inside_circle : List Bool
  pi_estimate : ℚ
  points_inside : ℕ
  points_total : ℤ
  deriving Repr, DecidableEq

/-- Embedding of `run_pi_simulation(num_points)` (lines 67–87 of the source).

* `if num_points <= 0: return np.array([]), np.array([]), np.array([]), 0, 0, 0`
* `x = np.random.uniform(-1, 1, num_points)` — draws `rng 0, …, rng (n-1)`
* `y = np.random.uniform(-1, 1, num_points)` — draws `rng n, …, rng (2n-1)`
* `distance_sq = x**2 + y**2` (elementwise)
* `inside_circle = distance_sq <= 1` (elementwise)
* `points_inside = np.sum(inside_circle)` — the number of `True` entries
* `points_total = num_points`
* `pi_estimate = 4 * points_inside / points_total if points_total > 0 else 0`
-/
def run_pi_simulation (rng : ℕ → ℚ) (num_points : ℤ) : SimOut :=
  if num_points ≤ 0 then
    ⟨[], [], [], 0, 0, 0⟩
  else
    let n : ℕ := num_points.toNat
    let x : List ℚ := (List.range n).map rng
    let y : List ℚ := (List.range n).map (fun i => rng (n + i))
    let distance_sq : List ℚ := List.zipWith (fun a b => a ^ 2 + b ^ 2) x y
    let inside_circle : List Bool := distance_sq.map (fun d => decide (d ≤ 1))
    let points_inside : ℕ := inside_circle.count true
    let points_total : ℤ := num_points
    let pi_estimate : ℚ :=
      if points_total > 0 then 4 * (points_inside : ℚ) / (points_total : ℚ) else 0
    ⟨x, y, inside_circle, pi_estimate, points_inside, points_total⟩

/-- The list held by the local variable `inside_circle` when `num_points > 0`:
the elementwise comparison `x**2 + y**2 <= 1` over the two draws. -/
def inside_list (rng : ℕ → ℚ) (m : ℕ) : List Bool :=
  (List.zipWith (fun a b => a ^ 2 + b ^ 2)
      ((List.range m).map rng)
      ((List.range m).map (fun i => rng (m + i)))).map
    (fun d => decide (d ≤ 1))

/-- Structural description of the branch taken when `num_points > 0`. -/
theorem run_pi_simulation_pos (rng : ℕ → ℚ) (num_points : ℤ)
    (h : 0 < num_points) :
    run_pi_simulation rng num_points =
      ⟨(List.range num_points.toNat).map rng,
        (List.range num_points.toNat).map (fun i => rng (num_points.toNat + i)),
        inside_list rng num_points.toNat,
        4 * ((inside_list rng num_points.toNat).count true : ℚ) / (num_points : ℚ),
        (inside_list rng num_points.toNat).count true,
        num_points⟩ := by
  simp only [run_pi_simulation, if_neg (not_le.mpr h), if_pos h, inside_list]

/-- The length of `inside_circle` equals the number of points drawn. -/
theorem inside_list_length (rng : ℕ → ℚ) (m : ℕ) :
    (inside_list rng m).length = m := by
  simp [inside_list, List.length_zipWith]

/-- Structural description of the branch taken when `num_points ≤ 0`. -/
theorem run_pi_simulation_nonpos (rng : ℕ → ℚ) (num_points : ℤ)
    (h : num_points ≤ 0) :
    run_pi_simulation rng num_points = ⟨[], [], [], 0, 0, 0⟩ := by
  simp only [run_pi_simulation, if_pos h]

/-- A text drawn on the axes by `ax.text(pos_x, pos_y, content, ...)`; `has_bbox`
records whether the call passed a `bbox` (the wheat-colored annotation box). -/
structure TextCmd where
  pos_x : ℚ
  pos_y : ℚ
  content : String
  has_bbox : Bool
  deriving Repr, DecidableEq

/-- The figure built by `plot_simulation`, recorded as the drawing calls issued
on the axes: the scatter calls (masked coordinate lists plus color), the text
calls, the boundary patches, whether `ax.legend` was called, and the axis
limits. -/
structure Figure where
  scatters : List (List ℚ × List ℚ × String)
  texts : List TextCmd
  patches : List String
  legend_shown : Bool
  xlim : ℚ × ℚ
  ylim : ℚ × ℚ
  stats_shown : Option (ℕ × ℤ × ℚ)
  deriving Repr, DecidableEq

/-- Numpy boolean-mask indexing `v[m]`: keep the entries of `v` whose
corresponding entry of `m` is `True`. -/
def boolean_mask (v : List ℚ) (m : List Bool) : List ℚ :=
  (List.zip v m).filterMap (fun p => if p.2 then some p.1 else none)

/-- Embedding of `plot_simulation(x, y, inside_circle, pi_estimate,
points_inside, points_total)` (lines 89–131 of the source).

* `if points_total > 0:` scatter `x[inside_circle]` in blue and
  `x[~inside_circle]` in red, draw the stats text at `(-1.05, 1.05)` with a
  bbox, and call `ax.legend`;
* `else:` draw the centered `"No points generated"` text at `(0, 0)` with no
  bbox;
* in both cases add the circle and square boundary patches and set the axis
  limits to `(-1.1, 1.1)`;
* `if points_total > 0:` call `ax.legend` again with the collected handles.

The stats text interpolates `points_inside`, `points_total`, `pi_estimate`
and `math.pi`; its rendered characters are irrelevant to the properties here,
so its content is recorded as a fixed marker string. -/
def plot_simulation (x y : List ℚ) (inside_circle : List Bool)
    (pi_estimate : ℚ) (points_inside : ℕ) (points_total : ℤ) : Figure :=
  if points_total > 0 then
    { scatters := [(boolean_mask x inside_circle, boolean_mask y inside_circle, "blue"),
                   (boolean_mask x (inside_circle.map not),
                    boolean_mask y (inside_circle.map not), "red")]
      texts := [⟨-(21 / 20), 21 / 20,
                 "Points Inside / Total Points / Estimate / Actual", true⟩]
      patches := ["circle", "square"]
      legend_shown := true
      xlim := (-(11 / 10), 11 / 10)
      ylim := (-(11 / 10), 11 / 10)
      stats_shown := some (points_inside, points_total, pi_estimate) }
  else
    { scatters := []
      texts := [⟨0, 0, "No points generated", false⟩]
      patches := ["circle", "square"]
      legend_shown := false
      xlim := (-(11 / 10), 11 / 10)
      ylim := (-(11 / 10), 11 / 10)
      stats_shown := none }

/-- The deterministic stand-in sampler of the spec's example scenario: the
`x` call consumes draws `0..3` giving `1, 0, 1, 0.1`, and the `y` call
consumes draws `4..7` giving `0, 1, 1, 0.1`, so the sampled points are
`(1,0), (0,1), (1,1), (0.1, 0.1)`. -/
def standin_rng : ℕ → ℚ :=
  fun i => [1, 0, 1, 1 / 10, 0, 1, 1, 1 / 10].getD i 0

/-- Claim C1: for every generated point `i`, the inside flag is `true` if and
only if `x[i]² + y[i]² ≤ 1`, the boundary counted as inside. -/
theorem inside_flag_iff_in_disk (rng : ℕ → ℚ) (n : ℤ) (i : ℕ)
    (h : i < (run_pi_simulation rng n).inside_circle.length) :
    ((run_pi_simulation rng n).inside_circle.getD i false = true ↔
      ((run_pi_simulation rng n).x.getD i 0) ^ 2 +
        ((run_pi_simulation rng n).y.getD i 0) ^ 2 ≤ 1) := by
  rcases le_or_lt n 0 with hn | hn
  · rw [run_pi_simulation_nonpos rng n hn] at h
    simp at h
  · rw [run_pi_simulation_pos rng n hn] at h ⊢
    rw [inside_list_length] at h
    rw [List.getD_eq_getElem _ _ (by rwa [inside_list_length]),
      List.getD_eq_getElem _ _ (by simp only [List.length_map, List.length_range]; omega),
      List.getD_eq_getElem _ _ (by simp only [List.length_map, List.length_range]; omega)]
    simp [inside_list, List.getElem_zipWith]

/-- Witness for claim C1 at `rng = const 0`, `n = 1`, `i = 0`. -/
theorem inside_flag_iff_in_disk_witness :
    0 < (run_pi_simulation (fun _ => 0) 1).inside_circle.length ∧
    ((run_pi_simulation (fun _ => 0) 1).inside_circle.getD 0 false = true ↔
      ((run_pi_simulation (fun _ => 0) 1).x.getD 0 0) ^ 2 +
        ((run_pi_simulation (fun _ => 0) 1).y.getD 0 0) ^ 2 ≤ 1) :=
  ⟨by decide, inside_flag_iff_in_disk (fun _ => 0) 1 0 (by decide)⟩

/-- Claim C2: `pi_estimate = 4 * points_inside / points_total` whenever
`points_total > 0`, and `pi_estimate = 0` when `points_total = 0`; the
division is guarded, so no division error can occur. -/
theorem pi_estimate_formula (rng : ℕ → ℚ) (n : ℤ) :
    (0 < (run_pi_simulation rng n).points_total →
      (run_pi_simulation rng n).pi_estimate =
        4 * ((run_pi_simulation rng n).points_inside : ℚ) /
          ((run_pi_simulation rng n).points_total : ℚ)) ∧
    ((run_pi_simulation rng n).points_total = 0 →
      (run_pi_simulation rng n).pi_estimate = 0) := by
  rcases le_or_lt n 0 with hn | hn
  · rw [run_pi_simulation_nonpos rng n hn]
    exact ⟨fun h => absurd h (by norm_num), fun _ => rfl⟩
  · rw [run_pi_simulation_pos rng n hn]
    exact ⟨fun _ => rfl, fun h => absurd h hn.ne'⟩

/-- Witness for claim C2: both branches, at `n = 2` and `n = 0`. -/
theorem pi_estimate_formula_witness :
    (0 < (run_pi_simulation (fun _ => 0) 2).points_total ∧
      (run_pi_simulation (fun _ => 0) 2).pi_estimate =
        4 * ((run_pi_simulation (fun _ => 0) 2).points_inside : ℚ) /
          ((run_pi_simulation (fun _ => 0) 2).points_total : ℚ)) ∧
    ((run_pi_simulation (fun _ => 0) 0).points_total = 0 ∧
      (run_pi_simulation (fun _ => 0) 0).pi_estimate = 0) :=
  ⟨⟨by decide, (pi_estimate_formula (fun _ => 0) 2).1 (by decide)⟩,
    ⟨by decide, (pi_estimate_formula (fun _ => 0) 0).2 (by decide)⟩⟩

/-- Claim C3: for every `n ≥ 1` the three returned sequences each have length
exactly `n`; the three parallel sequences always have equal length. -/
theorem simulate_lengths (rng : ℕ → ℚ) (n : ℤ) :
    ((run_pi_simulation rng n).x.length = (run_pi_simulation rng n).y.length ∧
      (run_pi_simulation rng n).y.length =
        (run_pi_simulation rng n).inside_circle.length) ∧
    (1 ≤ n → (run_pi_simulation rng n).x.length = n.toNat ∧
      (run_pi_simulation rng n).y.length = n.toNat ∧
      (run_pi_simulation rng n).inside_circle.length = n.toNat) := by
  rcases le_or_lt n 0 with hn | hn
  · rw [run_pi_simulation_nonpos rng n hn]
    exact ⟨⟨rfl, rfl⟩, fun h => absurd h (by omega)⟩
  · rw [run_pi_simulation_pos rng n hn]
    refine ⟨⟨by simp, by simp [inside_list_length]⟩, fun _ => ?_⟩
    exact ⟨by simp, by simp, inside_list_length rng n.toNat⟩

/-- Witness for claim C3 at `n = 3`. -/
theorem simulate_lengths_witness :
    (1 : ℤ) ≤ 3 ∧ (run_pi_simulation (fun _ => 0) 3).x.length = (3 : ℤ).toNat ∧
      (run_pi_simulation (fun _ => 0) 3).y.length = (3 : ℤ).toNat ∧
      (run_pi_simulation (fun _ => 0) 3).inside_circle.length = (3 : ℤ).toNat :=
  ⟨by decide, (simulate_lengths (fun _ => 0) 3).2 (by decide)⟩

/-- Claim C4: `simulate(0)` returns empty sequences, zero counts and a zero
estimate, with no error raised (the function is total on this input). -/
theorem simulate_zero (rng : ℕ → ℚ) :
    run_pi_simulation rng 0 = ⟨[], [], [], 0, 0, 0⟩ :=
  run_pi_simulation_nonpos rng 0 le_rfl

/-- Claim C5: `points_inside` equals the number of `true` entries of the
inside-flag sequence, and `points_inside ≤ points_total`. -/
theorem points_inside_spec (rng : ℕ → ℚ) (n : ℤ) :
    (run_pi_simulation rng n).points_inside =
      (run_pi_simulation rng n).inside_circle.count true ∧
    ((run_pi_simulation rng n).points_inside : ℤ) ≤
      (run_pi_simulation rng n).points_total := by
  rcases le_or_lt n 0 with hn | hn
  · rw [run_pi_simulation_nonpos rng n hn]
    exact ⟨rfl, le_refl 0⟩
  · rw [run_pi_simulation_pos rng n hn]
    refine ⟨rfl, ?_⟩
    have hc : (inside_list rng n.toNat).count true ≤ n.toNat := by
      simpa [inside_list_length] using
        List.count_le_length true (inside_list rng n.toNat)
    show ((inside_list rng n.toNat).count true : ℤ) ≤ n
    omega

/-- Claim C6: the deterministic stand-in sampler giving points
`(1,0), (0,1), (1,1), (0.1,0.1)` with `n = 4` yields
`inside_flags = [true, true, false, true]`, `points_inside = 3` and
`pi_estimate = 3`. -/
theorem standin_scenario :
    (run_pi_simulation standin_rng 4).inside_circle = [true, true, false, true] ∧
    (run_pi_simulation standin_rng 4).points_inside = 3 ∧
    (run_pi_simulation standin_rng 4).pi_estimate = 3 := by
  refine ⟨?_, ?_, ?_⟩ <;>
    simp [run_pi_simulation, standin_rng, List.range_succ] <;> norm_num

/-- Claim C7: every generated x and y coordinate lies in the closed interval
`[-1, 1]`, given that every draw of the uniform source lies in its documented
range `[-1, 1)`. -/
theorem coords_in_unit_interval (rng : ℕ → ℚ) (n : ℤ)
    (hr : ∀ i, -1 ≤ rng i ∧ rng i < 1) :
    (∀ a ∈ (run_pi_simulation rng n).x, -1 ≤ a ∧ a ≤ 1) ∧
    (∀ a ∈ (run_pi_simulation rng n).y, -1 ≤ a ∧ a ≤ 1) := by
  rcases le_or_lt n 0 with hn | hn
  · rw [run_pi_simulation_nonpos rng n hn]
    simp
  · rw [run_pi_simulation_pos rng n hn]
    constructor
    · intro a ha
      simp only [List.mem_map, List.mem_range] at ha
      obtain ⟨j, -, rfl⟩ := ha
      exact ⟨(hr j).1, (hr j).2.le⟩
    · intro a ha
      simp only [List.mem_map, List.mem_range] at ha
      obtain ⟨j, -, rfl⟩ := ha
      exact ⟨(hr _).1, (hr _).2.le⟩

/-- Witness for claim C7 at the constant-zero source and `n = 1`. -/
theorem coords_in_unit_interval_witness : -1 ≤ (0 : ℚ) ∧ (0 : ℚ) ≤ 1 :=
  (coords_in_unit_interval (fun _ => 0) 1 (fun _ => by norm_num)).1 0 (by decide)

/-- Claim C8: on a zero-point input the renderer is total (so no error is
raised), draws no scatter, draws the centered placeholder text with no
annotation box, and shows no legend. -/
theorem render_zero_case (x y : List ℚ) (inside_circle : List Bool)
    (pi_estimate : ℚ) (points_inside : ℕ) (points_total : ℤ)
    (h : points_total = 0) :
    (plot_simulation x y inside_circle pi_estimate points_inside
        points_total).scatters = [] ∧
    (plot_simulation x y inside_circle pi_estimate points_inside
        points_total).texts = [⟨0, 0, "No points generated", false⟩] ∧
    (plot_simulation x y inside_circle pi_estimate points_inside
        points_total).legend_shown = false ∧
    (plot_simulation x y inside_circle pi_estimate points_inside
        points_total).stats_shown = none := by
  subst h
  simp [plot_simulation]

/-- Witness for claim C8 on the empty run output. -/
theorem render_zero_case_witness :
    (plot_simulation [] [] [] 0 0 0).scatters = [] ∧
    (plot_simulation [] [] [] 0 0 0).texts =
      [⟨0, 0, "No points generated", false⟩] ∧
    (plot_simulation [] [] [] 0 0 0).legend_shown = false ∧
    (plot_simulation [] [] [] 0 0 0).stats_shown = none :=
  render_zero_case [] [] [] 0 0 0 rfl

/-- Claim C9: for every negative `n`, `run_pi_simulation` returns the same
empty sentinel result as for `n = 0`, raising no error, because the guard
tests `num_points <= 0`. -/
theorem simulate_negative (rng : ℕ → ℚ) (n : ℤ) (h : n < 0) :
    run_pi_simulation rng n = run_pi_simulation rng 0 ∧
    run_pi_simulation rng n = ⟨[], [], [], 0, 0, 0⟩ := by
  rw [run_pi_simulation_nonpos rng n h.le, run_pi_simulation_nonpos rng 0 le_rfl]
  exact ⟨rfl, rfl⟩

/-- Witness for claim C9 at `n = -1`. -/
theorem simulate_negative_witness :
    (-1 : ℤ) < 0 ∧ run_pi_simulation (fun _ => 0) (-1) = ⟨[], [], [], 0, 0, 0⟩ :=
  ⟨by decide, (simulate_negative (fun _ => 0) (-1) (by decide)).2⟩

/-- Bounding `4 * c / n` for a count `c` of at most `m = n` flags. -/
theorem four_mul_count_div_bounds (c m : ℕ) (n : ℤ) (hc : c ≤ m)
    (hm : (m : ℤ) = n) (hn : 0 < n) :
    0 ≤ 4 * (c : ℚ) / (n : ℚ) ∧ 4 * (c : ℚ) / (n : ℚ) ≤ 4 := by
  have hn' : (0 : ℚ) < (n : ℚ) := by exact_mod_cast hn
  constructor
  · positivity
  · rw [div_le_iff₀ hn']
    have hcn : (c : ℚ) ≤ (n : ℚ) := by
      have h1 : (c : ℤ) ≤ n := by omega
      exact_mod_cast h1
    linarith

/-- Claim C10: for every input `n`, the returned `pi_estimate` lies in the
closed interval `[0, 4]`. -/
theorem pi_estimate_in_zero_four (rng : ℕ → ℚ) (n : ℤ) :
    0 ≤ (run_pi_simulation rng n).pi_estimate ∧
    (run_pi_simulation rng n).pi_estimate ≤ 4 := by
  rcases le_or_lt n 0 with hn | hn
  · rw [run_pi_simulation_nonpos rng n hn]
    norm_num
  · rw [run_pi_simulation_pos rng n hn]
    refine four_mul_count_div_bounds _ n.toNat n ?_ (by omega) hn
    simpa [inside_list_length] using
      List.count_le_length true (inside_list rng n.toNat)
